import Mathlib

/-!
Verification of the OpenAPI-to-dataclass generator.

This file gives a shallow embedding of the generator's core
(`src/generator/generator.py` together with the keyword de-aliasing of
`src/generator/YamlDataClass.py`) and proves or refutes the specified
properties about type resolution, identifier mangling, field and
parameter ordering, method naming, content-type negotiation and
version dispatch.

Dictionaries of the parsed YAML document become association lists
(Python dictionaries preserve insertion order, as do lists), Python
strings become `String`, raised exceptions become `Except String`
results, and printed warnings are accumulated explicitly in the
traversal state.
-/

namespace OpenapiDataclass

/-! ### Python string primitives

Python's `str.split(sep)` (single-character separators only are used by
the source), `str.startswith`, `str.upper`, `str.lower`, `str.casefold`
(ASCII inputs only arise here) and `str.isupper`, modelled by structural
recursion over the character list of a `String`. -/

/-- Core of Python `s.split(c)` on the character list: splitting the
empty string gives one empty piece, exactly as in Python. -/
def pySplitAux (c : Char) : List Char → List String
  | [] => [""]
  | x :: xs =>
    let r := pySplitAux c xs
    if x = c then "" :: r
    else
      match r with
      | [] => [String.mk [x]]
      | y :: ys => String.mk (x :: y.data) :: ys

/-- Python `s.split(c)` for a one-character separator `c`. -/
def pySplit (c : Char) (s : String) : List String :=
  pySplitAux c s.data

/-- Python `s.startswith(pre)`. -/
def startswith (s pre : String) : Bool :=
  pre.data.isPrefixOf s.data

/-- Python `s.upper()` restricted to ASCII, which is all the source uses. -/
def pyUpper (s : String) : String :=
  String.mk (s.data.map Char.toUpper)

/-- Python `s.casefold()` / `s.lower()` restricted to ASCII. -/
def pyLower (s : String) : String :=
  String.mk (s.data.map Char.toLower)

/-- Python `s.isupper()` on ASCII text: at least one cased character and
no lowercase character. -/
def pyIsUpper (s : String) : Bool :=
  s.data.any (fun c => c.isAlpha) && s.data.all (fun c => !c.isLower)

/-- Python `lst[-1]` for the nonempty lists produced by `split`. -/
def pyLast : List String → String
  | [] => ""
  | [a] => a
  | _ :: rest => pyLast rest

/-- Assoc-list model of Python dict subscripting: first (unique) key wins. -/
def alist_get {α : Type} (l : List (String × α)) (k : String) : Option α :=
  (l.find? (fun kv => kv.1 == k)).map Prod.snd

/-! ### TypeResolver (`generator.py` lines 11-14, 112-144, 162-168) -/

/-- Embedding of `class DataType(Enum)` from `generator.py`. -/
inductive DataType where
  | BASIC
  | REF
deriving DecidableEq

/-- Embedding of `@dataclass class ItemType` from `generator.py`. -/
structure ItemType where
  data_type : DataType
  type_string : String
deriving DecidableEq

/-- The `type_mapping` table local to `map_openapi_type`. -/
def type_mapping : List (String × String) :=
  [("string", "str"), ("integer", "int"), ("number", "float"),
   ("boolean", "bool"), ("array", "List"), ("object", "Dict")]

/-- The reference-to-class-name computation of `map_openapi_type`:
`ref.split('/')[-1]` followed by `.split('.')[-1]`. -/
def refClassName (path : String) : String :=
  pyLast (pySplit '.' (pyLast (pySplit '/' path)))

/-- Embedding of `map_openapi_type` from `generator.py`.  A missing `type_mapping`
entry is Python's `KeyError`; accessing `array_type.data_type` when
`array_type is None` is Python's `AttributeError`. -/
def map_openapi_type (openapi_type : ItemType) (array_type : Option ItemType := none) :
    Except String String :=
  if openapi_type.data_type = DataType.REF then
    Except.ok (refClassName openapi_type.type_string)
  else if openapi_type.type_string = "array" then
    match array_type with
    | none => Except.error "AttributeError: NoneType has no attribute data_type"
    | some at0 =>
      if at0.data_type = DataType.REF then
        Except.ok ("List[" ++ refClassName at0.type_string ++ "]")
      else
        match alist_get type_mapping at0.type_string with
        | some t => Except.ok ("List[" ++ t ++ "]")
        | none => Except.error ("KeyError: " ++ at0.type_string)
  else
    match alist_get type_mapping openapi_type.type_string with
    | some t => Except.ok t
    | none => Except.error ("KeyError: " ++ openapi_type.type_string)

/-- A raw schema-property fragment as the generator reads it: the
optional `$ref` pointer, the optional `type` keyword, and the optional
`items` sub-fragment used for arrays. -/
inductive Fragment where
  | mk (ref : Option String) (ty : Option String) (items : Option Fragment)

/-- The `$ref` entry of a fragment. -/
def Fragment.ref : Fragment → Option String
  | .mk r _ _ => r

/-- The `type` entry of a fragment. -/
def Fragment.ty : Fragment → Option String
  | .mk _ t _ => t

/-- The `items` entry of a fragment. -/
def Fragment.items : Fragment → Option Fragment
  | .mk _ _ i => i

/-- Embedding of `Generator.get_openapi_type` from `generator.py`: `$ref` wins over
`type`; neither raises `NotImplementedError`. -/
def get_openapi_type (properties : Fragment) : Except String ItemType :=
  match properties.ref with
  | some r => Except.ok (ItemType.mk DataType.REF r)
  | none =>
    match properties.ty with
    | some t => Except.ok (ItemType.mk DataType.BASIC t)
    | none => Except.error "NotImplementedError: neither type nor ref"

/-! ### IdentifierMangler (`generator.py` lines 147-173,
`YamlDataClass.py` lines 10-21) -/

/-- Python `keyword.kwlist` of the CPython runtime the source targets. -/
def kwlist : List String :=
  ["False", "None", "True", "and", "as", "assert", "async", "await",
   "break", "class", "continue", "def", "del", "elif", "else",
   "except", "finally", "for", "from", "global", "if", "import",
   "in", "is", "lambda", "nonlocal", "not", "or", "pass", "raise",
   "return", "try", "while", "with", "yield"]

/-- Embedding of `Generator.reserved_names` from `generator.py`. -/
def reserved_names : List String := ["field", "List", "Dict", "Any"]

/-- Embedding of `Generator.mangle_python_keyword` from `generator.py`. -/
def mangle_python_keyword (word : String) : String :=
  if word ∈ kwlist ∨ word ∈ reserved_names then pyUpper word else word

/-- The per-key action of `__dealias_keywords__` from `YamlDataClass.py`:
an all-uppercase key is replaced by the first keyword or reserved name
with the same casefold, a missing match raises, and any other key is
left alone. -/
def dealias_word (key : String) : Option String :=
  if pyIsUpper key then
    (kwlist ++ reserved_names).find? (fun kw => pyLower key == pyLower kw)
  else some key

/-! ### ModelBuilder: definitions to dataclass fields
(`generator.py` lines 177-219) -/

/-- The four-space indent unit used by the generator. -/
def indent : String := "    "

/-- A schema definition as consumed by
`convert_definitions_to_dataclasses`: its `required` name list and its
ordered `properties` table. -/
structure Schema where
  required : List String
  properties : List (String × Fragment)

/-- The per-property type computation of
`convert_definitions_to_dataclasses` (lines 197-202): resolve the
property fragment, recurse into `items` when it is a basic `array`
(subscripting a missing `items` is a `KeyError`), then map to the
Python type name. -/
def field_type (field_props : Fragment) : Except String String := do
  let open_api_type ← get_openapi_type field_props
  let array_type ←
    if open_api_type.data_type = DataType.BASIC ∧ open_api_type.type_string = "array" then
      match field_props.items with
      | none => Except.error "KeyError: items"
      | some it => do
          let a ← get_openapi_type it
          Except.ok (some a)
    else Except.ok none
  map_openapi_type open_api_type array_type

/-- The rendered field declaration line of lines 203-208: indeed the
code appends `{field_type} {default}` with `default` empty for a
required field, leaving a trailing space. -/
def field_line (required_fields : List String) (field_name : String)
    (field_props : Fragment) : Except String String := do
  let ftype ← field_type field_props
  let dflt := if field_name ∈ required_fields then "" else "= field(default=None)"
  Except.ok (indent ++ mangle_python_keyword field_name ++ ": " ++ ftype ++ " " ++ dflt)

/-- The field-accumulation loop of lines 196-208: a required field is
`insert(0, ...)`-ed at the front, an optional field is appended at the
back. -/
def build_fields_aux (required_fields : List String) :
    List (String × Fragment) → List String → Except String (List String)
  | [], fields => Except.ok fields
  | p :: ps, fields => do
      let line ← field_line required_fields p.1 p.2
      if p.1 ∈ required_fields then
        build_fields_aux required_fields ps (line :: fields)
      else
        build_fields_aux required_fields ps (fields ++ [line])

/-- The ordered field-declaration list that
`convert_definitions_to_dataclasses` emits for one schema. -/
def build_fields (sch : Schema) : Except String (List String) :=
  build_fields_aux sch.required sch.properties []

/-- Error-propagating map, used to state ordering properties of the
builders. -/
def mapE {α β : Type} (f : α → Except String β) : List α → Except String (List β)
  | [] => Except.ok []
  | a :: l => do
      let b ← f a
      let bs ← mapE f l
      Except.ok (b :: bs)

/-- The `User` schema of the specification scenario:
`{properties: {id: integer, name: string}, required: [id, name]}`. -/
def user_schema : Schema :=
  { required := ["id", "name"],
    properties := [("id", Fragment.mk none (some "integer") none),
                   ("name", Fragment.mk none (some "string") none)] }

/-! ### ModelBuilder: paths to client methods
(`generator.py` lines 221-346) -/

/-- One entry of an operation's `parameters` list as the generator
reads it: its `in` location, `name`, `schema` fragment and `required`
flag. -/
structure Param where
  in_loc : String
  name : String
  schema : Fragment
  required : Bool

/-- One response object: its optional `content` table mapping a
media-type key to the `schema` fragment below it. -/
structure ResponseDef where
  content : Option (List (String × Fragment))

/-- One operation object: `parameters`, optional `operationId`, the
`requestBody.content` table (empty when `requestBody` is absent, as
produced by the chained `.get(..., {})`), and the `responses` table. -/
structure MethodDef where
  parameters : List Param := []
  operationId : Option String := none
  requestBodyContent : List (String × Fragment) := []
  responses : List (String × ResponseDef) := []

/-- Embedding of `@dataclass class Parameter` from `generator.py`. -/
structure Parameter where
  name : String
  type : String
  required : Bool
deriving DecidableEq

/-- The accumulator loop of `__construct_name__` (lines 222-226): walk
the path segments, remember the last one seen, stop at the first
segment that starts with a brace. -/
def last_non_param_aux (last : String) : List String → String
  | [] => last
  | item :: items =>
    if startswith item "\x7b" then last
    else last_non_param_aux item items

/-- Embedding of `Generator.__construct_name__` from `generator.py`. -/
def __construct_name__ (path : String) (md : MethodDef) (meth : String) : String :=
  let last_non_param_path_item := last_non_param_aux "" (pySplit '/' path)
  let meth1 := if md.parameters.length = 0 ∧ meth = "get" then "list" else meth
  md.operationId.getD (meth1 ++ last_non_param_path_item)

/-- The parameter-classification loop of lines 246-258: one pass over
`parameters`, collecting `in: path` entries and `in: query` entries in
order, resolving each type (a resolution failure propagates from the
first offending parameter, in declaration order). -/
def classifyParams : List Param → Except String (List Parameter × List Parameter)
  | [] => Except.ok ([], [])
  | p :: ps =>
    if p.in_loc = "path" then do
      let t0 ← get_openapi_type p.schema
      let t ← map_openapi_type t0 none
      let pq ← classifyParams ps
      Except.ok (Parameter.mk p.name t p.required :: pq.1, pq.2)
    else if p.in_loc = "query" then do
      let t0 ← get_openapi_type p.schema
      let t ← map_openapi_type t0 none
      let pq ← classifyParams ps
      Except.ok (pq.1, Parameter.mk p.name t p.required :: pq.2)
    else classifyParams ps

/-- The per-entry `Parameter` construction of lines 248-252 and
254-258: resolve the parameter's `schema` fragment and map it to the
Python type name. -/
def resolve_parameter (p : Param) : Except String Parameter := do
  let t0 ← get_openapi_type p.schema
  let t ← map_openapi_type t0 none
  Except.ok (Parameter.mk p.name t p.required)

/-- The argument-list loop of lines 261-268: a required parameter is
`insert(0, ...)`-ed at the front of both `args` and `method_args`, an
optional one is appended at the back (with a `= None` default in its
rendered form). -/
def build_args_aux : List Parameter → List String × List (String × String) →
    List String × List (String × String)
  | [], acc => acc
  | p :: ps, acc =>
    if p.required then
      build_args_aux ps ((p.name ++ ":" ++ p.type) :: acc.1, (p.name, p.type) :: acc.2)
    else
      build_args_aux ps
        (acc.1 ++ [p.name ++ ":" ++ p.type ++ " = None"], acc.2 ++ [(p.name, p.type)])

/-- The `args` and `method_args` lists built from the classified
path-then-query parameters. -/
def build_args (params : List Parameter) : List String × List (String × String) :=
  build_args_aux params ([], [])

/-- The synthesized request-body parameter of lines 282-283: when a
data type was resolved, `method_args.insert(0, ...)` places it first. -/
def with_data_arg (data_type : Option String) (margs : List (String × String)) :
    List (String × String) :=
  match data_type with
  | some t => ("data", t) :: margs
  | none => margs

/-- The content-type prefix-matching loop (lines 274-277 and 293-296):
each key that starts with the *current* content type replaces it and
records a match; later keys are compared against the replaced value. -/
def prefixScanAux (acc : String × Bool) : List String → String × Bool
  | [] => acc
  | k :: ks =>
    if startswith k acc.1 then prefixScanAux (k, true) ks
    else prefixScanAux acc ks

/-- Prefix-matching pass starting from content type `ct` with no match
recorded yet. -/
def prefixScan (ct : String) (keys : List String) : String × Bool :=
  prefixScanAux (ct, false) keys

/-- Warning printed when a POST/PATCH/PUT request body has no matching
content type (line 279). -/
def warn_request (meth path : String) : String :=
  "Warning: unsupported request content type. Skipping: " ++ meth ++ " " ++ path

/-- Warning printed when a 200 response has no matching content type
(line 298). -/
def warn_response (function_name : String) : String :=
  "WARNING: NO VALID RESPONSE TYPE FOR " ++ function_name ++ ". SKIPPING"

/-- Warning printed when an operation has no supported success
response (lines 313-314). -/
def warn_no_success (meth path : String) : String :=
  "Warning: no supported success response type for " ++ meth ++ " " ++ path ++ ". Skipping"

/-- Resolve and map the `schema` under one content entry, as in
`request_body_content[ct]["schema"]` followed by the type mapping. -/
def content_schema_type (content : List (String × Fragment)) (key : String) :
    Except String String :=
  match alist_get content key with
  | some schema => do
      let t ← get_openapi_type schema
      map_openapi_type t none
  | none => Except.error ("KeyError: " ++ key)

/-- The request-body stage of `convert_paths_to_methods`
(lines 269-283).  Returns `Sum.inl warning` when the operation is
skipped, otherwise `Sum.inr (ct, data_type?)` with the possibly
replaced content type and the synthesized data parameter type for
POST/PATCH/PUT. -/
def request_stage (ct meth path : String) (md : MethodDef) :
    Except String (Sum String (String × Option String)) :=
  if meth = "post" ∨ meth = "patch" ∨ meth = "put" then
    if (md.requestBodyContent.map Prod.fst).contains ct = true then do
      let t ← content_schema_type md.requestBodyContent ct
      Except.ok (Sum.inr (ct, some t))
    else
      if (prefixScan ct (md.requestBodyContent.map Prod.fst)).2 = true then do
        let t ← content_schema_type md.requestBodyContent
            (prefixScan ct (md.requestBodyContent.map Prod.fst)).1
        Except.ok (Sum.inr
          ((prefixScan ct (md.requestBodyContent.map Prod.fst)).1, some t))
      else Except.ok (Sum.inl (warn_request meth path))
  else Except.ok (Sum.inr (ct, none))

/-- The per-response content-type negotiation of lines 291-296: exact
key match keeps the current content type, otherwise the prefix scan
runs. -/
def response_scan (ct : String) (content : List (String × Fragment)) : String × Bool :=
  if (content.map Prod.fst).contains ct = true then (ct, true)
  else prefixScan ct (content.map Prod.fst)

/-- The element-type resolution of lines 302-304: only an `array`
response consults `schema["items"]` (a missing `items` is a
`KeyError`). -/
def resolve_item_type (openapi_type : ItemType) (schema : Fragment) :
    Except String (Option ItemType) :=
  if openapi_type.type_string = "array" then
    match schema.items with
    | none => Except.error "KeyError: items"
    | some it => do
        let a ← get_openapi_type it
        Except.ok (some a)
  else Except.ok none

/-- The deserialization-statement choice of lines 306-311. -/
def make_return_statement (response_type : String) (openapi_type : ItemType)
    (item_type : Option ItemType) : Except String String :=
  if response_type = "str" then Except.ok "return response.string()"
  else if openapi_type.type_string = "array" then
    match item_type with
    | some it => do
        let el ← map_openapi_type it none
        Except.ok ("return [" ++ el ++ ".load(item) for item in response.json()]")
    | none => Except.error "AttributeError: NoneType"
  else Except.ok ("return " ++ response_type ++ ".load(response.json())")

/-- The response-typing stage of `convert_paths_to_methods`
(lines 285-315).  Returns `Sum.inl (ct, warning)` when the operation is
skipped (the content type possibly already replaced by the request
stage stays), otherwise `Sum.inr (ct, response_type,
return_statement)`. -/
def response_stage (ct meth path function_name : String) (md : MethodDef) :
    Except String (Sum (String × String) (String × String × String)) :=
  if pyLower meth = "delete" ∨ pyLower meth = "put"
      ∨ (md.responses.map Prod.fst).contains "204" = true then
    Except.ok (Sum.inr (ct, "None", "pass"))
  else if (md.responses.map Prod.fst).contains "200" = true then
    match alist_get md.responses "200" with
    | none => Except.error "KeyError: 200"
    | some r200 =>
      match r200.content with
      | none => Except.ok (Sum.inr (ct, "Any", "pass"))
      | some content =>
        if (response_scan ct content).2 = false then
          Except.ok (Sum.inl (ct, warn_response function_name))
        else
          match alist_get content (response_scan ct content).1 with
          | none => Except.error ("KeyError: " ++ (response_scan ct content).1)
          | some schema => do
            let openapi_type ← get_openapi_type schema
            let item_type ← resolve_item_type openapi_type schema
            let response_type ← map_openapi_type openapi_type item_type
            let return_statement ←
              make_return_statement response_type openapi_type item_type
            Except.ok (Sum.inr
              ((response_scan ct content).1, response_type, return_statement))
  else Except.ok (Sum.inl (ct, warn_no_success meth path))

/-- One generated client method, keeping the pieces the rendering
interpolates: name, synthesized data-parameter type, rendered
positional argument strings, the full `method_args` list as
(name, type) pairs, the return type annotation and the statement
inside the `try` block. -/
structure GenMethod where
  function_name : String
  data_type : Option String
  args : List String
  method_args : List (String × String)
  response_type : String
  return_statement : String
deriving DecidableEq

/-- Traversal state of `convert_paths_to_methods`: the current (and
mutable, see lines 276 and 295) content type, the generated methods in
order, and the warnings printed so far. -/
structure PState where
  ct : String
  methods : List GenMethod
  warnings : List String
deriving DecidableEq

/-- Processing of a single `(path, method, operation)` triple inside
the loops of `convert_paths_to_methods` (lines 241-345). -/
def processOp (st : PState) (path meth : String) (md : MethodDef) :
    Except String PState := do
  let pq ← classifyParams md.parameters
  let function_name := __construct_name__ path md meth
  let ab := build_args (pq.1 ++ pq.2)
  match ← request_stage st.ct meth path md with
  | Sum.inl w => Except.ok { st with warnings := st.warnings ++ [w] }
  | Sum.inr ctd =>
    match ← response_stage ctd.1 meth path function_name md with
    | Sum.inl cw =>
        Except.ok { st with ct := cw.1, warnings := st.warnings ++ [cw.2] }
    | Sum.inr crr =>
        Except.ok { st with
          ct := crr.1,
          methods := st.methods ++
            [GenMethod.mk function_name ctd.2 ab.1 (with_data_arg ctd.2 ab.2)
              crr.2.1 crr.2.2] }

/-- The operation list in document order: the two nested loops of
lines 241-242 flattened. -/
def flatten_paths (paths : List (String × List (String × MethodDef))) :
    List (String × String × MethodDef) :=
  paths.flatMap (fun pm => pm.2.map (fun m => (pm.1, m.1, m.2)))

/-- Sequential processing of operations, threading the state. -/
def processOps : List (String × String × MethodDef) → PState → Except String PState
  | [], st => Except.ok st
  | op :: ops, st => do
      let st1 ← processOp st op.1 op.2.1 op.2.2
      processOps ops st1

/-- Embedding of `Generator.convert_paths_to_methods`: the generated
methods and the recorded warnings. -/
def convert_paths_to_methods (paths : List (String × List (String × MethodDef)))
    (response_content_type : String := "application/json") :
    Except String (List GenMethod × List String) :=
  (processOps (flatten_paths paths) (PState.mk response_content_type [] [])).map
    (fun st => (st.methods, st.warnings))

/-! ### Concrete documents used to witness and refute properties -/

/-- An operation carrying one query parameter, to exercise the naming
rule away from the parameterless-GET special case. -/
def one_param_md : MethodDef :=
  { parameters := [Param.mk "query" "q" (Fragment.mk none (some "string") none) true] }

/-- A `$ref` fragment pointing at the `Pet` schema. -/
def pet_ref : Fragment := Fragment.mk (some "#/components/schemas/Pet") none none

/-- A responses table with only a `204` entry. -/
def resp_204 : List (String × ResponseDef) := [("204", ResponseDef.mk none)]

/-- A POST whose request body is declared under the media type
`application/json; v=2`: a strict extension of the configured type. -/
def op_json_v2 : MethodDef :=
  { requestBodyContent := [("application/json; v=2", pet_ref)], responses := resp_204 }

/-- A POST whose request body is declared only under `text/plain`. -/
def op_text_plain : MethodDef :=
  { requestBodyContent := [("text/plain", pet_ref)], responses := resp_204 }

/-- A POST whose request body is declared exactly under
`application/json`, the configured content type. -/
def op_exact_json : MethodDef :=
  { requestBodyContent := [("application/json", pet_ref)], responses := resp_204 }

/-- A three-operation document: a prefix-matching POST, then a
non-matching POST, then an exactly-matching POST. -/
def paths_three : List (String × List (String × MethodDef)) :=
  [("/a", [("post", op_json_v2)]),
   ("/b", [("post", op_text_plain)]),
   ("/c", [("post", op_exact_json)])]

/-- The document containing only the exactly-matching POST. -/
def paths_solo : List (String × List (String × MethodDef)) :=
  [("/c", [("post", op_exact_json)])]

/-- A POST with no `requestBody` at all and a `200` response without a
`content` entry. -/
def post_no_body_op : MethodDef :=
  { responses := [("200", ResponseDef.mk none)] }

/-- A POST whose request body matches the configured content type
exactly and whose `200` response has no `content` entry. -/
def op_post_200_nocontent : MethodDef :=
  { requestBodyContent := [("application/json", pet_ref)],
    responses := [("200", ResponseDef.mk none)] }

/-- A GET whose `200` response declares its content only under
`application/json; charset=utf-8`: a strict extension of the
configured type, exercising the response-side prefix match. -/
def op_200_prefix : MethodDef :=
  { responses := [("200",
      ResponseDef.mk (some [("application/json; charset=utf-8", pet_ref)]))] }

/-- A POST whose request body prefix-matches the configured type but
whose `200` response content matches neither that replaced key exactly
nor by prefix: it is skipped at the response stage *after* the
request-stage replacement. -/
def op_mixed_skip : MethodDef :=
  { requestBodyContent := [("application/json; v=2", pet_ref)],
    responses := [("200", ResponseDef.mk (some [("text/plain", pet_ref)]))] }

/-- An operation declaring an optional query parameter *before* an
optional path parameter, exercising the reclassification of the
parameter list. -/
def query_before_path_md : MethodDef :=
  { parameters :=
      [Param.mk "query" "q" (Fragment.mk none (some "string") none) false,
       Param.mk "path" "p" (Fragment.mk none (some "integer") none) false] }

/-- The initial traversal state for the default configured content
type. -/
def init_state : PState := PState.mk "application/json" [] []

/-! ### Pipeline driver: version dispatch (`generator.py` lines 352-366) -/

/-- The document keys `from_file` consults for version dispatch. -/
structure OpenApiDoc where
  swagger : Option String := none
  openapi : Option String := none
  definitions : Option (List (String × Schema)) := none
  components_schemas : Option (List (String × Schema)) := none

/-- Outcome of the version-dispatch prefix of `from_file`
(lines 355-366), before any model construction. -/
inductive FromFileOutcome where
  | fatalNoVersion
  | noDefinitions
  | proceeds (defs : List (String × Schema))

/-- Embedding of the version-dispatch prefix of `Generator.from_file`:
`spec_version = spec.get("swagger", spec.get("openapi"))`; `None`
exits fatally; `"2.0"` selects `definitions`, a version starting with
`"3"` selects `components.schemas`, anything else leaves the initial
empty table; an empty or missing table returns after a notification. -/
def version_dispatch (doc : OpenApiDoc) : FromFileOutcome :=
  match doc.swagger.orElse (fun _ => doc.openapi) with
  | none => FromFileOutcome.fatalNoVersion
  | some spec_version =>
    let definitions : List (String × Schema) :=
      if spec_version = "2.0" then (doc.definitions.getD [])
      else if startswith spec_version "3" then (doc.components_schemas.getD [])
      else []
    if definitions.isEmpty then FromFileOutcome.noDefinitions
    else FromFileOutcome.proceeds definitions

/-- A document with no version marker at all. -/
def doc_empty : OpenApiDoc := {}

/-- A document with the unrecognized version marker `swagger: "1.0"`
and a nonempty definitions section. -/
def doc_v1 : OpenApiDoc :=
  { swagger := some "1.0", definitions := some [("User", user_schema)] }

/-- A v2 document without a definitions section. -/
def doc_v2_nodefs : OpenApiDoc := { swagger := some "2.0" }

/-- A v2 document with a one-schema definitions section. -/
def doc_v2 : OpenApiDoc :=
  { swagger := some "2.0", definitions := some [("User", user_schema)] }

/-- A v3 document without a `components.schemas` section. -/
def doc_v3_nodefs : OpenApiDoc := { openapi := some "3.0.1" }

/-- A v3 document with a one-schema `components.schemas` section. -/
def doc_v3 : OpenApiDoc :=
  { openapi := some "3.0.1",
    components_schemas := some [("User", user_schema)] }

/-! ### Helper lemmas -/

instance exceptDecEq {ε α : Type} [DecidableEq ε] [DecidableEq α] :
    DecidableEq (Except ε α) := fun x y =>
  match x, y with
  | Except.ok a, Except.ok b =>
    if h : a = b then Decidable.isTrue (by rw [h])
    else Decidable.isFalse (by simp [h])
  | Except.ok _, Except.error _ => Decidable.isFalse (fun hh => Except.noConfusion hh)
  | Except.error _, Except.ok _ => Decidable.isFalse (fun hh => Except.noConfusion hh)
  | Except.error e, Except.error f =>
    if h : e = f then Decidable.isTrue (by rw [h])
    else Decidable.isFalse (by simp [h])

theorem ok_bind {α β : Type} (a : α) (f : α → Except String β) :
    (Except.ok a >>= f) = f a := rfl

theorem error_bind {α β : Type} (e : String) (f : α → Except String β) :
    ((Except.error e : Except String α) >>= f) = Except.error e := rfl

theorem bind_ok_elim {α β : Type} {e : Except String α} {f : α → Except String β}
    {b : β} (h : (e >>= f) = Except.ok b) :
    ∃ a, e = Except.ok a ∧ f a = Except.ok b := by
  cases e with
  | error msg =>
    rw [error_bind] at h
    exact absurd h (by simp)
  | ok a =>
    rw [ok_bind] at h
    exact ⟨a, rfl, h⟩

/-! ### Claim C6: mangling round trip -/

/-- C6: for every word in the reserved set (the Python keywords plus
`field`/`List`/`Dict`/`Any`), de-aliasing recovers the word from its
mangled (upper-cased) form, and every word outside the reserved set is
left unchanged by mangling. -/
theorem mangle_demangle_round_trip (w : String) :
    (w ∈ kwlist ++ reserved_names →
      dealias_word (mangle_python_keyword w) = some w)
    ∧ (w ∉ kwlist ++ reserved_names → mangle_python_keyword w = w) := by
  constructor
  · intro hw
    exact (by decide :
      ∀ x ∈ kwlist ++ reserved_names,
        dealias_word (mangle_python_keyword x) = some x) w hw
  · intro hw
    rw [List.mem_append] at hw
    push_neg at hw
    rw [mangle_python_keyword, if_neg]
    rintro (h | h)
    · exact hw.1 h
    · exact hw.2 h

/-- Witness for C6 at the reserved word `field` and the plain word
`user_id`. -/
theorem mangle_demangle_round_trip_witness :
    dealias_word (mangle_python_keyword "field") = some "field"
    ∧ mangle_python_keyword "user_id" = "user_id" :=
  ⟨(mangle_demangle_round_trip "field").1 (by decide),
   (mangle_demangle_round_trip "user_id").2 (by decide)⟩

/-! ### Claim C8: primitive type round trip -/

/-- C8: resolving `{type: name}` and mapping the result yields exactly
the fixed table entry for the five primitive names; any name outside
the table makes the mapping fail; a fragment with neither `$ref` nor
`type` makes resolution fail. -/
theorem primitive_type_round_trip :
    (∀ p ∈ [("string", "str"), ("integer", "int"), ("number", "float"),
            ("boolean", "bool"), ("object", "Dict")],
      (do
        let t ← get_openapi_type (Fragment.mk none (some p.1) none)
        map_openapi_type t none) = Except.ok p.2)
    ∧ (∀ nm, nm ∉ ["string", "integer", "number", "boolean", "object"] →
        ∃ e, (do
          let t ← get_openapi_type (Fragment.mk none (some nm) none)
          map_openapi_type t none) = Except.error e)
    ∧ (∃ e, get_openapi_type (Fragment.mk none none none) = Except.error e) := by
  refine ⟨by decide, ?_, ⟨_, rfl⟩⟩
  intro nm hnm
  simp only [List.mem_cons, List.not_mem_nil, or_false, not_or] at hnm
  obtain ⟨h1, h2, h3, h4, h5⟩ := hnm
  by_cases ha : nm = "array"
  · subst ha
    exact ⟨_, rfl⟩
  · refine ⟨"KeyError: " ++ nm, ?_⟩
    show (get_openapi_type (Fragment.mk none (some nm) none) >>=
      fun t => map_openapi_type t none) = Except.error ("KeyError: " ++ nm)
    rw [get_openapi_type]
    show map_openapi_type (ItemType.mk DataType.BASIC nm) none =
      Except.error ("KeyError: " ++ nm)
    rw [map_openapi_type]
    simp only [ItemType.data_type, ItemType.type_string]
    rw [if_neg (by simp), if_neg ha]
    have e1 : ("string" == nm) = false := beq_eq_false_iff_ne.mpr (Ne.symm h1)
    have e2 : ("integer" == nm) = false := beq_eq_false_iff_ne.mpr (Ne.symm h2)
    have e3 : ("number" == nm) = false := beq_eq_false_iff_ne.mpr (Ne.symm h3)
    have e4 : ("boolean" == nm) = false := beq_eq_false_iff_ne.mpr (Ne.symm h4)
    have e5 : ("object" == nm) = false := beq_eq_false_iff_ne.mpr (Ne.symm h5)
    have e6 : ("array" == nm) = false := beq_eq_false_iff_ne.mpr (Ne.symm ha)
    have : alist_get type_mapping nm = none := by
      simp [alist_get, type_mapping, List.find?, e1, e2, e3, e4, e5, e6]
    rw [this]

/-! ### Claim C9: array-of-reference resolution -/

theorem pySplitAux_chars (c : Char) (l : List Char) :
    ∀ s ∈ pySplitAux c l, ∀ ch ∈ s.data, ch ∈ l ∧ ch ≠ c := by
  induction l with
  | nil =>
    intro s hs ch hch
    simp only [pySplitAux, List.mem_singleton] at hs
    subst hs
    simp only [String.data] at hch
    exact absurd hch (List.not_mem_nil ch)
  | cons x xs ih =>
    intro s hs ch hch
    simp only [pySplitAux] at hs
    by_cases hx : x = c
    · rw [if_pos hx] at hs
      rcases List.mem_cons.mp hs with h | h
      · subst h
        simp only [String.data] at hch
        exact absurd hch (List.not_mem_nil ch)
      · obtain ⟨hmem, hne⟩ := ih s h ch hch
        exact ⟨List.mem_cons_of_mem x hmem, hne⟩
    · rw [if_neg hx] at hs
      cases hr : pySplitAux c xs with
      | nil =>
        rw [hr] at hs
        simp only [List.mem_singleton] at hs
        subst hs
        simp only [String.data, List.mem_singleton] at hch
        rw [hch]
        exact ⟨List.mem_cons_self x xs, hx⟩
      | cons y ys =>
        rw [hr] at hs
        rcases List.mem_cons.mp hs with h | h
        · subst h
          simp only [String.data, List.mem_cons] at hch
          rcases hch with h' | h'
          · rw [h']
            exact ⟨List.mem_cons_self x xs, hx⟩
          · obtain ⟨hmem, hne⟩ := ih y (hr ▸ List.mem_cons_self y ys) ch h'
            exact ⟨List.mem_cons_of_mem x hmem, hne⟩
        · obtain ⟨hmem, hne⟩ := ih s (hr ▸ List.mem_cons_of_mem y h) ch hch
          exact ⟨List.mem_cons_of_mem x hmem, hne⟩

theorem pySplitAux_ne_nil (c : Char) (l : List Char) : pySplitAux c l ≠ [] := by
  cases l with
  | nil => simp [pySplitAux]
  | cons x xs =>
    simp only [pySplitAux]
    by_cases hx : x = c
    · rw [if_pos hx]
      exact List.cons_ne_nil _ _
    · rw [if_neg hx]
      cases pySplitAux c xs with
      | nil => exact List.cons_ne_nil _ _
      | cons y ys => exact List.cons_ne_nil _ _

theorem pyLast_mem : ∀ (l : List String), l ≠ [] → pyLast l ∈ l := by
  intro l
  induction l with
  | nil => intro h; exact absurd rfl h
  | cons a l ih =>
    intro _
    cases hl : l with
    | nil => simp [pyLast]
    | cons b bs =>
      have : pyLast (a :: b :: bs) = pyLast (b :: bs) := rfl
      rw [this]
      exact List.mem_cons_of_mem a (hl ▸ ih (by simp [hl]))

theorem refClassName_chars (r : String) :
    ∀ ch ∈ (refClassName r).data, ch ≠ '/' ∧ ch ≠ '.' := by
  intro ch hch
  have h1 : pyLast (pySplit '/' r) ∈ pySplit '/' r :=
    pyLast_mem _ (pySplitAux_ne_nil '/' r.data)
  have h2 : refClassName r ∈ pySplit '.' (pyLast (pySplit '/' r)) :=
    pyLast_mem _ (pySplitAux_ne_nil '.' (pyLast (pySplit '/' r)).data)
  obtain ⟨hmem2, hdot⟩ :=
    pySplitAux_chars '.' (pyLast (pySplit '/' r)).data _ h2 ch hch
  obtain ⟨_, hslash⟩ := pySplitAux_chars '/' r.data _ h1 ch hmem2
  exact ⟨hslash, hdot⟩

/-- C9: an array fragment whose `items` entry is a `$ref` maps to
`List[C]` where `C` is the referenced class name, which contains no
path separator and no package separator, hence is never the full
reference path of a qualified reference. -/
theorem array_ref_class_name (r : String) :
    field_type (Fragment.mk none (some "array")
        (some (Fragment.mk (some r) none none)))
      = Except.ok ("List[" ++ refClassName r ++ "]")
    ∧ '/' ∉ (refClassName r).data ∧ '.' ∉ (refClassName r).data := by
  refine ⟨rfl, ?_, ?_⟩
  · intro h
    exact (refClassName_chars r '/' h).1 rfl
  · intro h
    exact (refClassName_chars r '.' h).2 rfl

/-- Witness for C8 at `integer`, at the unknown primitive `date`, and
at the empty fragment. -/
theorem primitive_type_round_trip_witness :
    (do
      let t ← get_openapi_type (Fragment.mk none (some "integer") none)
      map_openapi_type t none) = Except.ok "int"
    ∧ (∃ e, (do
        let t ← get_openapi_type (Fragment.mk none (some "date") none)
        map_openapi_type t none) = Except.error e)
    ∧ (∃ e, get_openapi_type (Fragment.mk none none none) = Except.error e) :=
  ⟨primitive_type_round_trip.1 ("integer", "int") (by decide),
   primitive_type_round_trip.2.1 "date" (by decide),
   primitive_type_round_trip.2.2⟩

/-! ### Claim C1: field ordering in generated dataclasses -/

theorem build_fields_aux_spec (req : List String) (ps : List (String × Fragment)) :
    ∀ rr oo ls, build_fields_aux req ps (rr ++ oo) = Except.ok ls →
    ∃ reqs opts,
      mapE (fun p => field_line req p.1 p.2)
          (ps.filter (fun p => decide (p.1 ∈ req))) = Except.ok reqs
      ∧ mapE (fun p => field_line req p.1 p.2)
          (ps.filter (fun p => !decide (p.1 ∈ req))) = Except.ok opts
      ∧ ls = reqs.reverse ++ (rr ++ (oo ++ opts)) := by
  induction ps with
  | nil =>
    intro rr oo ls h
    simp only [build_fields_aux] at h
    refine ⟨[], [], rfl, rfl, ?_⟩
    cases h
    simp
  | cons p ps ih =>
    intro rr oo ls h
    simp only [build_fields_aux] at h
    cases hfl : field_line req p.1 p.2 with
    | error e =>
      rw [hfl, error_bind] at h
      exact absurd h (by simp)
    | ok line =>
      rw [hfl, ok_bind] at h
      by_cases hp : p.1 ∈ req
      · rw [if_pos hp] at h
        have h' : build_fields_aux req ps ((line :: rr) ++ oo) = Except.ok ls := by
          simpa using h
        obtain ⟨reqs, opts, h1, h2, h3⟩ := ih (line :: rr) oo ls h'
        refine ⟨line :: reqs, opts, ?_, ?_, ?_⟩
        · simp [List.filter_cons, hp, mapE, hfl, h1, ok_bind]
        · simp [List.filter_cons, hp, h2]
        · rw [h3]
          simp
      · rw [if_neg hp] at h
        have h' : build_fields_aux req ps (rr ++ (oo ++ [line])) = Except.ok ls := by
          simpa using h
        obtain ⟨reqs, opts, h1, h2, h3⟩ := ih rr (oo ++ [line]) ls h'
        refine ⟨reqs, line :: opts, ?_, ?_, ?_⟩
        · simp [List.filter_cons, hp, h1]
        · simp [List.filter_cons, hp, mapE, hfl, h2, ok_bind]
        · rw [h3]
          simp
/-- C1 (amended): `convert_definitions_to_dataclasses` emits all
required fields before all optional fields; the optional fields keep
the schema's declaration order but the required fields appear in
*reverse* declaration order, because each required field is inserted
at position 0. -/
theorem build_fields_required_reversed (sch : Schema) (ls : List String)
    (h : build_fields sch = Except.ok ls) :
    ∃ reqs opts,
      mapE (fun p => field_line sch.required p.1 p.2)
          (sch.properties.filter (fun p => decide (p.1 ∈ sch.required)))
        = Except.ok reqs
      ∧ mapE (fun p => field_line sch.required p.1 p.2)
          (sch.properties.filter (fun p => !decide (p.1 ∈ sch.required)))
        = Except.ok opts
      ∧ ls = reqs.reverse ++ opts := by
  obtain ⟨reqs, opts, h1, h2, h3⟩ :=
    build_fields_aux_spec sch.required sch.properties [] [] ls h
  exact ⟨reqs, opts, h1, h2, by simpa using h3⟩

/-- Witness for C1 (amended) at the specification's `User` scenario. -/
theorem build_fields_required_reversed_witness :
    ∃ reqs opts,
      mapE (fun p => field_line user_schema.required p.1 p.2)
          (user_schema.properties.filter
            (fun p => decide (p.1 ∈ user_schema.required)))
        = Except.ok reqs
      ∧ mapE (fun p => field_line user_schema.required p.1 p.2)
          (user_schema.properties.filter
            (fun p => !decide (p.1 ∈ user_schema.required)))
        = Except.ok opts
      ∧ ["    name: str ", "    id: int "] = reqs.reverse ++ opts :=
  build_fields_required_reversed user_schema ["    name: str ", "    id: int "] rfl

/-- Counterexample to C1 as stated: on the `User` scenario the
generated class declares `name` before `id`, not `id` before `name` as
the required-first-in-declaration-order reading demands. -/
theorem user_schema_field_order_cex :
    build_fields user_schema = Except.ok ["    name: str ", "    id: int "]
    ∧ (["    name: str ", "    id: int "] : List String)
        ≠ ["    id: int ", "    name: str "] :=
  ⟨rfl, by decide⟩

/-! ### Claim C3: parameter ordering in generated signatures -/

theorem build_args_aux_spec (params : List Parameter) :
    ∀ rr oo rr2 oo2,
      build_args_aux params (rr ++ oo, rr2 ++ oo2) =
        (((params.filter (fun p => p.required)).map
            (fun p => p.name ++ ":" ++ p.type)).reverse
          ++ (rr ++ (oo ++ (params.filter (fun p => !p.required)).map
            (fun p => p.name ++ ":" ++ p.type ++ " = None"))),
         ((params.filter (fun p => p.required)).map
            (fun p => (p.name, p.type))).reverse
          ++ (rr2 ++ (oo2 ++ (params.filter (fun p => !p.required)).map
            (fun p => (p.name, p.type))))) := by
  induction params with
  | nil =>
    intro rr oo rr2 oo2
    simp [build_args_aux]
  | cons p ps ih =>
    intro rr oo rr2 oo2
    by_cases hp : p.required
    · have step : build_args_aux (p :: ps) (rr ++ oo, rr2 ++ oo2) =
          build_args_aux ps (((p.name ++ ":" ++ p.type) :: rr) ++ oo,
            ((p.name, p.type) :: rr2) ++ oo2) := by
        simp [build_args_aux, hp]
      rw [step, ih]
      simp [List.filter_cons, hp]
    · have step : build_args_aux (p :: ps) (rr ++ oo, rr2 ++ oo2) =
          build_args_aux ps
            (rr ++ (oo ++ [p.name ++ ":" ++ p.type ++ " = None"]),
             rr2 ++ (oo2 ++ [(p.name, p.type)])) := by
        simp [build_args_aux, hp]
      rw [step, ih]
      simp [List.filter_cons, hp]

theorem classifyParams_spec (ps : List Param) :
    ∀ pq, classifyParams ps = Except.ok pq →
      mapE resolve_parameter (ps.filter (fun p => decide (p.in_loc = "path")))
        = Except.ok pq.1
      ∧ mapE resolve_parameter (ps.filter (fun p => decide (p.in_loc = "query")))
        = Except.ok pq.2 := by
  induction ps with
  | nil =>
    intro pq h
    simp only [classifyParams] at h
    have hpq : pq = ([], []) := by
      injection h with h1
      exact h1.symm
    rw [hpq]
    exact ⟨rfl, rfl⟩
  | cons p ps ih =>
    intro pq h
    simp only [classifyParams] at h
    by_cases hpath : p.in_loc = "path"
    · rw [if_pos hpath] at h
      obtain ⟨t0, ht0, h1⟩ := bind_ok_elim h
      obtain ⟨t, ht, h2⟩ := bind_ok_elim h1
      obtain ⟨pq', hpq', h3⟩ := bind_ok_elim h2
      have hpq : pq = (Parameter.mk p.name t p.required :: pq'.1, pq'.2) := by
        injection h3 with h4
        exact h4.symm
      obtain ⟨ih1, ih2⟩ := ih pq' hpq'
      have hres : resolve_parameter p
          = Except.ok (Parameter.mk p.name t p.required) := by
        simp only [resolve_parameter, ht0, ok_bind, ht]
      have hquery : ¬(p.in_loc = "query") := by
        rw [hpath]
        decide
      constructor
      · rw [hpq]
        simp [List.filter_cons, hpath, mapE, hres, ih1, ok_bind]
      · rw [hpq]
        simp [List.filter_cons, hquery, ih2]
    · rw [if_neg hpath] at h
      by_cases hquery : p.in_loc = "query"
      · rw [if_pos hquery] at h
        obtain ⟨t0, ht0, h1⟩ := bind_ok_elim h
        obtain ⟨t, ht, h2⟩ := bind_ok_elim h1
        obtain ⟨pq', hpq', h3⟩ := bind_ok_elim h2
        have hpq : pq = (pq'.1, Parameter.mk p.name t p.required :: pq'.2) := by
          injection h3 with h4
          exact h4.symm
        obtain ⟨ih1, ih2⟩ := ih pq' hpq'
        have hres : resolve_parameter p
            = Except.ok (Parameter.mk p.name t p.required) := by
          simp only [resolve_parameter, ht0, ok_bind, ht]
        constructor
        · rw [hpq]
          simp [List.filter_cons, hpath, ih1]
        · rw [hpq]
          simp [List.filter_cons, hquery, mapE, hres, ih2, ok_bind]
      · rw [if_neg hquery] at h
        obtain ⟨ih1, ih2⟩ := ih pq h
        constructor
        · simp [List.filter_cons, hpath, ih1]
        · simp [List.filter_cons, hquery, ih2]

/-- C3 (amended): for an operation's declared parameter list, the
generator first *reclassifies* the parameters — all `in: path` entries
in declaration order, then all `in: query` entries in declaration
order — and builds the argument list over that reclassified sequence:
all required parameters precede all optional ones, the optional group
keeps the reclassified (path-then-query) order, and the required
group appears in *reverse* of that order, because each required
parameter is inserted at position 0; the synthesized `data` parameter,
when present, is placed at the very front of `method_args`.  Relative
*declaration* order is not preserved across the path/query split. -/
theorem build_args_required_reversed (ps : List Param)
    (pq : List Parameter × List Parameter) (t : String)
    (margs : List (String × String))
    (hcp : classifyParams ps = Except.ok pq) :
    mapE resolve_parameter (ps.filter (fun p => decide (p.in_loc = "path")))
        = Except.ok pq.1
    ∧ mapE resolve_parameter (ps.filter (fun p => decide (p.in_loc = "query")))
        = Except.ok pq.2
    ∧ build_args (pq.1 ++ pq.2) =
        ((((pq.1 ++ pq.2).filter (fun p => p.required)).map
            (fun p => p.name ++ ":" ++ p.type)).reverse
          ++ ((pq.1 ++ pq.2).filter (fun p => !p.required)).map
            (fun p => p.name ++ ":" ++ p.type ++ " = None"),
         (((pq.1 ++ pq.2).filter (fun p => p.required)).map
            (fun p => (p.name, p.type))).reverse
          ++ ((pq.1 ++ pq.2).filter (fun p => !p.required)).map
            (fun p => (p.name, p.type)))
    ∧ with_data_arg (some t) margs = ("data", t) :: margs := by
  obtain ⟨h1, h2⟩ := classifyParams_spec ps pq hcp
  refine ⟨h1, h2, ?_, rfl⟩
  have h := build_args_aux_spec (pq.1 ++ pq.2) [] [] [] []
  simpa [build_args] using h

/-- Witness for C3 (amended) at an operation declaring a query
parameter before a path parameter: classification yields the path
entry first, and the optional arguments follow that reclassified
order. -/
theorem build_args_required_reversed_witness :
    mapE resolve_parameter (query_before_path_md.parameters.filter
        (fun p => decide (p.in_loc = "path")))
      = Except.ok [Parameter.mk "p" "int" false]
    ∧ mapE resolve_parameter (query_before_path_md.parameters.filter
        (fun p => decide (p.in_loc = "query")))
      = Except.ok [Parameter.mk "q" "str" false]
    ∧ build_args ([Parameter.mk "p" "int" false] ++ [Parameter.mk "q" "str" false])
      = (["p:int = None", "q:str = None"], [("p", "int"), ("q", "str")])
    ∧ with_data_arg (some "Pet") [] = [("data", "Pet")] :=
  build_args_required_reversed query_before_path_md.parameters
    ([Parameter.mk "p" "int" false], [Parameter.mk "q" "str" false]) "Pet" [] rfl

/-- Counterexample to C3 as stated: two required parameters `a` then
`b` come out in the order `b`, `a`, not in declaration order; and an
operation declaring an optional query parameter `q` before an optional
path parameter `p` yields the optional arguments in the order `p`,
`q`, so even the optional group does not preserve declaration
order. -/
theorem build_args_order_cex :
    build_args [Parameter.mk "a" "int" true, Parameter.mk "b" "str" true]
      = (["b:str", "a:int"], [("b", "str"), ("a", "int")])
    ∧ (["b:str", "a:int"] : List String) ≠ ["a:int", "b:str"]
    ∧ classifyParams query_before_path_md.parameters
      = Except.ok ([Parameter.mk "p" "int" false], [Parameter.mk "q" "str" false])
    ∧ build_args ([Parameter.mk "p" "int" false] ++ [Parameter.mk "q" "str" false])
      = (["p:int = None", "q:str = None"], [("p", "int"), ("q", "str")])
    ∧ (["p:int = None", "q:str = None"] : List String)
      ≠ ["q:str = None", "p:int = None"] :=
  ⟨rfl, by decide, rfl, rfl, by decide⟩

/-! ### Claim C4: generated method naming -/

theorem last_non_param_aux_spec (items : List String) :
    ∀ last, last_non_param_aux last items =
      (if (items.takeWhile (fun i => !startswith i "\x7b")) = []
       then last
       else pyLast (items.takeWhile (fun i => !startswith i "\x7b"))) := by
  induction items with
  | nil =>
    intro last
    simp [last_non_param_aux, List.takeWhile]
  | cons i is ih =>
    intro last
    by_cases hi : startswith i "\x7b"
    · simp [last_non_param_aux, hi, List.takeWhile_cons, pyLast]
    · rw [show last_non_param_aux last (i :: is) = last_non_param_aux i is by
        simp [last_non_param_aux, hi]]
      rw [ih i]
      simp only [List.takeWhile_cons, hi, Bool.not_false, if_true]
      cases hw : is.takeWhile (fun i => !startswith i "\x7b") with
      | nil => simp [pyLast]
      | cons w ws => simp [pyLast]

/-- C4 (amended): the generated method name is the explicit
`operationId` when present, and otherwise the HTTP method name (with
`list` replacing `get` for a parameterless GET) concatenated with the
last path segment *strictly before the first* `{parameter}`
placeholder (the empty string when the path starts with a
placeholder), not the last non-placeholder segment of the whole
path. -/
theorem construct_name_spec (path meth : String) (md : MethodDef) :
    __construct_name__ path md meth
      = md.operationId.getD
          ((if md.parameters.length = 0 ∧ meth = "get" then "list" else meth)
            ++ (if ((pySplit '/' path).takeWhile
                    (fun i => !startswith i "\x7b")) = []
                then ""
                else pyLast ((pySplit '/' path).takeWhile
                    (fun i => !startswith i "\x7b")))) := by
  rw [__construct_name__, last_non_param_aux_spec]

/-- Counterexample to C4 as stated: for path `/a/{id}/b` with one
declared parameter and no `operationId`, the generated name is `geta`
(segment before the first placeholder), not `getb` (last
non-placeholder segment). -/
theorem construct_name_cex :
    __construct_name__ "/a/\x7bid\x7d/b" one_param_md "get" = "geta"
    ∧ ("geta" : String) ≠ "getb" :=
  ⟨rfl, by decide⟩

/-! ### Stage lemmas for `convert_paths_to_methods` -/

theorem bfalse_not_true {b : Bool} (h : b = false) : ¬(b = true) := by
  rw [h]
  exact Bool.false_ne_true

theorem btrue_not_false {b : Bool} (h : b = true) : ¬(b = false) := by
  intro hh
  rw [h] at hh
  exact Bool.noConfusion hh

theorem prefixScanAux_mem (ks : List String) :
    ∀ acc, (prefixScanAux acc ks).2 = true →
      (prefixScanAux acc ks).1 ∈ ks
        ∨ ((prefixScanAux acc ks).1 = acc.1 ∧ acc.2 = true) := by
  induction ks with
  | nil =>
    intro acc h
    exact Or.inr ⟨rfl, h⟩
  | cons k ks ih =>
    intro acc h
    simp only [prefixScanAux] at h ⊢
    by_cases hk : startswith k acc.1 = true
    · rw [if_pos hk] at h ⊢
      rcases ih (k, true) h with hm | he
      · exact Or.inl (List.mem_cons_of_mem k hm)
      · exact Or.inl (by rw [he.1]; exact List.mem_cons_self k ks)
    · rw [if_neg hk] at h ⊢
      rcases ih acc h with hm | he
      · exact Or.inl (List.mem_cons_of_mem k hm)
      · exact Or.inr he

theorem prefixScan_mem (ct : String) (ks : List String)
    (h : (prefixScan ct ks).2 = true) : (prefixScan ct ks).1 ∈ ks := by
  rcases prefixScanAux_mem ks (ct, false) h with hm | he
  · exact hm
  · exact absurd he.2 (by simp)

theorem request_stage_skip (ct meth path : String) (md : MethodDef)
    (hmeth : meth = "post" ∨ meth = "patch" ∨ meth = "put")
    (hct : (md.requestBodyContent.map Prod.fst).contains ct = false)
    (hscan : (prefixScan ct (md.requestBodyContent.map Prod.fst)).2 = false) :
    request_stage ct meth path md
      = Except.ok (Sum.inl (warn_request meth path)) := by
  unfold request_stage
  rw [if_pos hmeth, if_neg (bfalse_not_true hct), if_neg (bfalse_not_true hscan)]

theorem request_stage_prefix (ct meth path : String) (md : MethodDef)
    (hmeth : meth = "post" ∨ meth = "patch" ∨ meth = "put")
    (hct : (md.requestBodyContent.map Prod.fst).contains ct = false)
    (hscan : (prefixScan ct (md.requestBodyContent.map Prod.fst)).2 = true)
    (T : String)
    (hT : content_schema_type md.requestBodyContent
        (prefixScan ct (md.requestBodyContent.map Prod.fst)).1 = Except.ok T) :
    request_stage ct meth path md
      = Except.ok (Sum.inr
          ((prefixScan ct (md.requestBodyContent.map Prod.fst)).1, some T)) := by
  unfold request_stage
  rw [if_pos hmeth, if_neg (bfalse_not_true hct), if_pos hscan, hT, ok_bind]

theorem request_stage_other (ct meth path : String) (md : MethodDef)
    (hmeth : ¬(meth = "post" ∨ meth = "patch" ∨ meth = "put")) :
    request_stage ct meth path md = Except.ok (Sum.inr (ct, none)) := by
  unfold request_stage
  rw [if_neg hmeth]

theorem response_stage_none_branch (ct meth path fn : String) (md : MethodDef)
    (h : pyLower meth = "delete" ∨ pyLower meth = "put"
      ∨ (md.responses.map Prod.fst).contains "204" = true) :
    response_stage ct meth path fn md = Except.ok (Sum.inr (ct, "None", "pass")) := by
  unfold response_stage
  rw [if_pos h]

theorem response_stage_skip (ct meth path fn : String) (md : MethodDef)
    (r : ResponseDef) (content : List (String × Fragment))
    (hdl : pyLower meth ≠ "delete") (hpl : pyLower meth ≠ "put")
    (h204 : (md.responses.map Prod.fst).contains "204" = false)
    (h200 : (md.responses.map Prod.fst).contains "200" = true)
    (hr : alist_get md.responses "200" = some r)
    (hc : r.content = some content)
    (hct : (content.map Prod.fst).contains ct = false)
    (hscan : (prefixScan ct (content.map Prod.fst)).2 = false) :
    response_stage ct meth path fn md
      = Except.ok (Sum.inl (ct, warn_response fn)) := by
  have hrs : (response_scan ct content).2 = false := by
    unfold response_scan
    rw [if_neg (bfalse_not_true hct)]
    exact hscan
  unfold response_stage
  rw [if_neg (by rintro (h | h | h); exacts [hdl h, hpl h, bfalse_not_true h204 h])]
  rw [if_pos h200, hr]
  simp only [hc, hrs, if_pos]

theorem response_stage_no_content (ct meth path fn : String) (md : MethodDef)
    (r : ResponseDef)
    (hdl : pyLower meth ≠ "delete") (hpl : pyLower meth ≠ "put")
    (h204 : (md.responses.map Prod.fst).contains "204" = false)
    (h200 : (md.responses.map Prod.fst).contains "200" = true)
    (hr : alist_get md.responses "200" = some r)
    (hc : r.content = none) :
    response_stage ct meth path fn md
      = Except.ok (Sum.inr (ct, "Any", "pass")) := by
  unfold response_stage
  rw [if_neg (by rintro (h | h | h); exacts [hdl h, hpl h, bfalse_not_true h204 h])]
  rw [if_pos h200, hr]
  simp only [hc]

theorem response_stage_prefix_key (ct meth path fn : String) (md : MethodDef)
    (r : ResponseDef) (content : List (String × Fragment))
    (crr : String × String × String)
    (hdl : pyLower meth ≠ "delete") (hpl : pyLower meth ≠ "put")
    (h204 : (md.responses.map Prod.fst).contains "204" = false)
    (h200 : (md.responses.map Prod.fst).contains "200" = true)
    (hr : alist_get md.responses "200" = some r)
    (hc : r.content = some content)
    (hct : (content.map Prod.fst).contains ct = false)
    (hscan : (prefixScan ct (content.map Prod.fst)).2 = true)
    (hres : response_stage ct meth path fn md = Except.ok (Sum.inr crr)) :
    crr.1 = (prefixScan ct (content.map Prod.fst)).1 := by
  unfold response_stage at hres
  rw [if_neg (by rintro (h | h | h); exacts [hdl h, hpl h, bfalse_not_true h204 h]),
    if_pos h200, hr] at hres
  simp only [hc] at hres
  have hrs : response_scan ct content = prefixScan ct (content.map Prod.fst) := by
    unfold response_scan
    rw [if_neg (bfalse_not_true hct)]
  rw [hrs, if_neg (btrue_not_false hscan)] at hres
  cases hget : alist_get content (prefixScan ct (content.map Prod.fst)).1 with
  | none =>
    rw [hget] at hres
    exact absurd hres (by simp)
  | some schema =>
    rw [hget] at hres
    obtain ⟨ot, hot, hres1⟩ := bind_ok_elim hres
    obtain ⟨it, hit, hres2⟩ := bind_ok_elim hres1
    obtain ⟨rt, hrt, hres3⟩ := bind_ok_elim hres2
    obtain ⟨rs, hrss, hres4⟩ := bind_ok_elim hres3
    have hcrr : crr = ((prefixScan ct (content.map Prod.fst)).1, rt, rs) := by
      injection hres4 with h5
      injection h5 with h6
      exact h6.symm
    rw [hcrr]

/-! ### Claim C2: the operation-skip policy -/

/-- C2 (amended): an operation whose request-body or 200-response
media-type keys neither equal the *current* content type (initially
the configured one) nor match it by prefix produces no method and
records exactly one warning; the methods list and the earlier
warnings are untouched.  A request-stage skip leaves the whole state
unchanged apart from that warning.  A response-stage skip leaves the
content type at whatever the *same operation's* request stage
produced — unchanged for non-body methods, possibly prefix-replaced
for POST/PATCH/PUT whose body matched — and subsequent operations
continue from exactly that state.  (The claim's stronger reading —
that every other operation renders as it would on its own — fails,
because a prefix match in one operation replaces the content type
used for all later operations.) -/
theorem skipped_op_leaves_state :
    (∀ (st : PState) (path meth : String) (md : MethodDef)
      (pq : List Parameter × List Parameter),
      classifyParams md.parameters = Except.ok pq →
      (meth = "post" ∨ meth = "patch" ∨ meth = "put") →
      (md.requestBodyContent.map Prod.fst).contains st.ct = false →
      (prefixScan st.ct (md.requestBodyContent.map Prod.fst)).2 = false →
      processOp st path meth md
          = Except.ok { st with warnings := st.warnings ++ [warn_request meth path] }
        ∧ ∀ ops, processOps ((path, meth, md) :: ops) st
            = processOps ops { st with warnings := st.warnings ++ [warn_request meth path] })
    ∧ (∀ (st : PState) (path meth : String) (md : MethodDef)
        (pq : List Parameter × List Parameter) (ctd : String × Option String)
        (r : ResponseDef) (content : List (String × Fragment)),
        classifyParams md.parameters = Except.ok pq →
        request_stage st.ct meth path md = Except.ok (Sum.inr ctd) →
        pyLower meth ≠ "delete" → pyLower meth ≠ "put" →
        (md.responses.map Prod.fst).contains "204" = false →
        (md.responses.map Prod.fst).contains "200" = true →
        alist_get md.responses "200" = some r →
        r.content = some content →
        (content.map Prod.fst).contains ctd.1 = false →
        (prefixScan ctd.1 (content.map Prod.fst)).2 = false →
        processOp st path meth md
            = Except.ok (PState.mk ctd.1 st.methods (st.warnings ++
                [warn_response (__construct_name__ path md meth)]))
          ∧ ∀ ops, processOps ((path, meth, md) :: ops) st
              = processOps ops (PState.mk ctd.1 st.methods (st.warnings ++
                  [warn_response (__construct_name__ path md meth)]))) := by
  constructor
  · intro st path meth md pq hcp hmeth hct hscan
    have hop : processOp st path meth md
        = Except.ok { st with warnings := st.warnings ++ [warn_request meth path] } := by
      simp only [processOp, hcp, ok_bind,
        request_stage_skip st.ct meth path md hmeth hct hscan]
    exact ⟨hop, fun ops => by simp only [processOps, hop, ok_bind]⟩
  · intro st path meth md pq ctd r content hcp hreq hdl hpl h204 h200 hr hc hct hscan
    have hop : processOp st path meth md
        = Except.ok (PState.mk ctd.1 st.methods (st.warnings ++
            [warn_response (__construct_name__ path md meth)])) := by
      simp only [processOp, hcp, ok_bind, hreq,
        response_stage_skip ctd.1 meth path (__construct_name__ path md meth)
          md r content hdl hpl h204 h200 hr hc hct hscan]
    exact ⟨hop, fun ops => by simp only [processOps, hop, ok_bind]⟩

/-- Witness for C2 (amended): the `text/plain` POST is skipped at the
request stage with exactly one warning and an unchanged state; the
POST whose body prefix-matched but whose 200-response content matches
nothing is skipped at the response stage with exactly one warning,
keeping its own request-stage content-type replacement and nothing
else. -/
theorem skipped_op_leaves_state_witness :
    (processOp init_state "/b" "post" op_text_plain
        = Except.ok { init_state with
            warnings := init_state.warnings ++ [warn_request "post" "/b"] }
      ∧ ∀ ops, processOps (("/b", "post", op_text_plain) :: ops) init_state
          = processOps ops { init_state with
              warnings := init_state.warnings ++ [warn_request "post" "/b"] })
    ∧ (processOp init_state "/z" "post" op_mixed_skip
        = Except.ok (PState.mk "application/json; v=2" []
            [warn_response "postz"])
      ∧ ∀ ops, processOps (("/z", "post", op_mixed_skip) :: ops) init_state
          = processOps ops (PState.mk "application/json; v=2" []
              [warn_response "postz"])) :=
  ⟨skipped_op_leaves_state.1 init_state "/b" "post" op_text_plain ([], [])
     rfl (Or.inl rfl) rfl rfl,
   skipped_op_leaves_state.2 init_state "/z" "post" op_mixed_skip ([], [])
     ("application/json; v=2", some "Pet")
     (ResponseDef.mk (some [("text/plain", pet_ref)])) [("text/plain", pet_ref)]
     rfl rfl (by decide) (by decide) rfl rfl rfl rfl rfl rfl⟩

/-- Counterexample to C2 as stated: in the three-operation document the
`text/plain` POST is indeed skipped with one warning, but the third
operation — whose media type equals the configured `application/json`
exactly — is *also* skipped, although on its own it renders; the
prefix-matching first operation replaced the content type for the rest
of the run. -/
theorem skip_affects_later_ops_cex :
    (convert_paths_to_methods paths_three "application/json").map
        (fun r => (r.1.map GenMethod.function_name, r.2))
      = Except.ok (["posta"],
          [warn_request "post" "/b", warn_request "post" "/c"])
    ∧ (convert_paths_to_methods paths_solo "application/json").map
        (fun r => (r.1.map GenMethod.function_name, r.2))
      = Except.ok (["postc"], [])
    ∧ ("postc" : String) ∉ (["posta"] : List String) :=
  ⟨rfl, rfl, by decide⟩

/-! ### Claim C7: the prefix match replaces the content type for the
rest of the run -/

/-- C7: a content-type prefix match replaces the current content type
with the full matching media-type key for the rest of the run, on
both channels.  Part 1: a request-body prefix match (POST/PATCH/PUT)
produces a state whose content type is the scanned key — one of the
operation's own media-type keys, different from the previous content
type — shown end-to-end for an operation whose response needs no
content lookup.  Part 2: a 200-response prefix match makes the
response stage return that scanned key — again a key of the response
content table and different from the incoming type — as the new
content type.  Part 3: whenever both stages succeed, the operation's
resulting state carries exactly the response stage's content type.
Part 4: processing always continues from the state an operation
produces, so every subsequent operation is matched against the
replaced key instead of the originally configured one. -/
theorem prefix_match_replaces_content_type :
    (∀ (st : PState) (path meth : String) (md : MethodDef)
      (pq : List Parameter × List Parameter) (T : String),
      classifyParams md.parameters = Except.ok pq →
      (meth = "post" ∨ meth = "patch" ∨ meth = "put") →
      (md.requestBodyContent.map Prod.fst).contains st.ct = false →
      (prefixScan st.ct (md.requestBodyContent.map Prod.fst)).2 = true →
      content_schema_type md.requestBodyContent
          (prefixScan st.ct (md.requestBodyContent.map Prod.fst)).1
        = Except.ok T →
      (md.responses.map Prod.fst).contains "204" = true →
      processOp st path meth md
          = Except.ok (PState.mk
              (prefixScan st.ct (md.requestBodyContent.map Prod.fst)).1
              (st.methods ++
                [GenMethod.mk (__construct_name__ path md meth) (some T)
                  (build_args (pq.1 ++ pq.2)).1
                  (("data", T) :: (build_args (pq.1 ++ pq.2)).2) "None" "pass"])
              st.warnings)
        ∧ (prefixScan st.ct (md.requestBodyContent.map Prod.fst)).1
            ∈ md.requestBodyContent.map Prod.fst
        ∧ (prefixScan st.ct (md.requestBodyContent.map Prod.fst)).1 ≠ st.ct)
    ∧ (∀ (ct meth path fn : String) (md : MethodDef) (r : ResponseDef)
        (content : List (String × Fragment)) (crr : String × String × String),
        pyLower meth ≠ "delete" → pyLower meth ≠ "put" →
        (md.responses.map Prod.fst).contains "204" = false →
        (md.responses.map Prod.fst).contains "200" = true →
        alist_get md.responses "200" = some r →
        r.content = some content →
        (content.map Prod.fst).contains ct = false →
        (prefixScan ct (content.map Prod.fst)).2 = true →
        response_stage ct meth path fn md = Except.ok (Sum.inr crr) →
        crr.1 = (prefixScan ct (content.map Prod.fst)).1
          ∧ (prefixScan ct (content.map Prod.fst)).1 ∈ content.map Prod.fst
          ∧ (prefixScan ct (content.map Prod.fst)).1 ≠ ct)
    ∧ (∀ (st : PState) (path meth : String) (md : MethodDef)
        (pq : List Parameter × List Parameter) (ctd : String × Option String)
        (crr : String × String × String),
        classifyParams md.parameters = Except.ok pq →
        request_stage st.ct meth path md = Except.ok (Sum.inr ctd) →
        response_stage ctd.1 meth path (__construct_name__ path md meth) md
          = Except.ok (Sum.inr crr) →
        processOp st path meth md
          = Except.ok (PState.mk crr.1
              (st.methods ++
                [GenMethod.mk (__construct_name__ path md meth) ctd.2
                  (build_args (pq.1 ++ pq.2)).1
                  (with_data_arg ctd.2 (build_args (pq.1 ++ pq.2)).2)
                  crr.2.1 crr.2.2])
              st.warnings))
    ∧ (∀ (st st' : PState) (path meth : String) (md : MethodDef)
        (ops : List (String × String × MethodDef)),
        processOp st path meth md = Except.ok st' →
        processOps ((path, meth, md) :: ops) st = processOps ops st') := by
  refine ⟨?_, ?_, ?_, ?_⟩
  · intro st path meth md pq T hcp hmeth hct hscan hT h204
    have hmem : (prefixScan st.ct (md.requestBodyContent.map Prod.fst)).1
        ∈ md.requestBodyContent.map Prod.fst :=
      prefixScan_mem st.ct (md.requestBodyContent.map Prod.fst) hscan
    have hne : (prefixScan st.ct (md.requestBodyContent.map Prod.fst)).1
        ≠ st.ct := by
      intro he
      rw [he] at hmem
      have htrue : (md.requestBodyContent.map Prod.fst).contains st.ct = true :=
        List.elem_iff.mpr hmem
      rw [hct] at htrue
      exact Bool.noConfusion htrue
    refine ⟨?_, hmem, hne⟩
    simp only [processOp, hcp, ok_bind,
      request_stage_prefix st.ct meth path md hmeth hct hscan T hT,
      response_stage_none_branch
        (prefixScan st.ct (md.requestBodyContent.map Prod.fst)).1 meth path
        (__construct_name__ path md meth) md (Or.inr (Or.inr h204))]
    rfl
  · intro ct meth path fn md r content crr hdl hpl h204 h200 hr hc hct hscan hres
    have hmem : (prefixScan ct (content.map Prod.fst)).1 ∈ content.map Prod.fst :=
      prefixScan_mem ct (content.map Prod.fst) hscan
    have hne : (prefixScan ct (content.map Prod.fst)).1 ≠ ct := by
      intro he
      rw [he] at hmem
      have htrue : (content.map Prod.fst).contains ct = true :=
        List.elem_iff.mpr hmem
      rw [hct] at htrue
      exact Bool.noConfusion htrue
    exact ⟨response_stage_prefix_key ct meth path fn md r content crr
      hdl hpl h204 h200 hr hc hct hscan hres, hmem, hne⟩
  · intro st path meth md pq ctd crr hcp hreq hresp
    simp only [processOp, hcp, ok_bind, hreq, hresp]
  · intro st st' path meth md ops h
    simp only [processOps, h, ok_bind]

/-- Witness for C7: the POST declaring `application/json; v=2` at the
configured `application/json` replaces the content type (request-body
channel); the GET whose 200 response declares
`application/json; charset=utf-8` replaces it through the response
channel, and the rest of the run continues from that state. -/
theorem prefix_match_replaces_content_type_witness :
    (processOp init_state "/pets" "post" op_json_v2
        = Except.ok (PState.mk "application/json; v=2"
            [GenMethod.mk "postpets" (some "Pet") [] [("data", "Pet")]
              "None" "pass"] [])
      ∧ ("application/json; v=2" : String) ≠ "application/json")
    ∧ (("application/json; charset=utf-8", "Pet",
          "return Pet.load(response.json())").1
        = (prefixScan "application/json" ["application/json; charset=utf-8"]).1
      ∧ (prefixScan "application/json" ["application/json; charset=utf-8"]).1
        ≠ "application/json")
    ∧ processOp init_state "/y" "get" op_200_prefix
        = Except.ok (PState.mk "application/json; charset=utf-8"
            [GenMethod.mk "listy" none [] [] "Pet"
              "return Pet.load(response.json())"] [])
    ∧ ∀ ops, processOps (("/y", "get", op_200_prefix) :: ops) init_state
        = processOps ops (PState.mk "application/json; charset=utf-8"
            [GenMethod.mk "listy" none [] [] "Pet"
              "return Pet.load(response.json())"] []) := by
  have hA := prefix_match_replaces_content_type.1 init_state "/pets" "post"
    op_json_v2 ([], []) "Pet" rfl (Or.inl rfl) rfl rfl rfl rfl
  have hB := prefix_match_replaces_content_type.2.1 "application/json" "get"
    "/y" "listy" op_200_prefix
    (ResponseDef.mk (some [("application/json; charset=utf-8", pet_ref)]))
    [("application/json; charset=utf-8", pet_ref)]
    ("application/json; charset=utf-8", "Pet", "return Pet.load(response.json())")
    (by decide) (by decide) rfl rfl rfl rfl rfl rfl rfl
  have hC := prefix_match_replaces_content_type.2.2.1 init_state "/y" "get"
    op_200_prefix ([], []) ("application/json", none)
    ("application/json; charset=utf-8", "Pet", "return Pet.load(response.json())")
    rfl rfl rfl
  exact ⟨⟨hA.1, hA.2.2⟩, ⟨hB.1, hB.2.2⟩, hC,
    fun ops => prefix_match_replaces_content_type.2.2.2 init_state _ "/y" "get"
      op_200_prefix ops hC⟩

/-! ### Claim C10: a content-less 200 response still generates -/

/-- C10 (amended): every operation that reaches the response stage —
any non-POST/PATCH/PUT operation, and any POST/PATCH/PUT whose
request-body media type matched the current content type exactly or
by prefix, so that the request stage did not skip it — that is not a
DELETE or PUT, declares no `204`, and declares a `200` response
without any `content` entry, is generated — with no warning — with
return type `Any` and the no-op statement `pass` in its `try` block
(carrying the synthesized `data` parameter when the request stage
produced one).  (As stated the claim fails for POST: a POST whose
request body is missing is skipped by the request-body check with a
warning before the response stage is reached.) -/
theorem no_content_yields_any_pass (st : PState) (path meth : String)
    (md : MethodDef) (pq : List Parameter × List Parameter)
    (ctd : String × Option String) (r : ResponseDef)
    (hcp : classifyParams md.parameters = Except.ok pq)
    (hreq : request_stage st.ct meth path md = Except.ok (Sum.inr ctd))
    (hdl : pyLower meth ≠ "delete") (hpl : pyLower meth ≠ "put")
    (h204 : (md.responses.map Prod.fst).contains "204" = false)
    (h200 : (md.responses.map Prod.fst).contains "200" = true)
    (hr : alist_get md.responses "200" = some r)
    (hc : r.content = none) :
    processOp st path meth md
      = Except.ok { st with ct := ctd.1, methods := st.methods ++
          [GenMethod.mk (__construct_name__ path md meth) ctd.2
            (build_args (pq.1 ++ pq.2)).1
            (with_data_arg ctd.2 (build_args (pq.1 ++ pq.2)).2)
            "Any" "pass"] } := by
  simp only [processOp, hcp, ok_bind, hreq,
    response_stage_no_content ctd.1 meth path (__construct_name__ path md meth)
      md r hdl hpl h204 h200 hr hc]

/-- Witness for C10 (amended): a GET with a content-less 200 response
is generated with return type `Any` and body `pass` and no warning;
so is a POST whose request body matched the configured type exactly,
with its synthesized `data` parameter. -/
theorem no_content_yields_any_pass_witness :
    processOp init_state "/x" "get" post_no_body_op
      = Except.ok (PState.mk "application/json"
          [GenMethod.mk "listx" none [] [] "Any" "pass"] [])
    ∧ processOp init_state "/x" "post" op_post_200_nocontent
      = Except.ok (PState.mk "application/json"
          [GenMethod.mk "postx" (some "Pet") [] [("data", "Pet")]
            "Any" "pass"] []) :=
  ⟨no_content_yields_any_pass init_state "/x" "get" post_no_body_op ([], [])
     ("application/json", none) (ResponseDef.mk none)
     rfl rfl (by decide) (by decide) rfl rfl rfl rfl,
   no_content_yields_any_pass init_state "/x" "post" op_post_200_nocontent
     ([], []) ("application/json", some "Pet") (ResponseDef.mk none)
     rfl rfl (by decide) (by decide) rfl rfl rfl rfl⟩

/-- Counterexample to C10 as stated: the same content-less-200
operation under POST (with no request body) is skipped with a warning
by the request-body check, producing no method at all. -/
theorem post_no_content_skipped_cex :
    processOp init_state "/x" "post" post_no_body_op
      = Except.ok (PState.mk "application/json" []
          [warn_request "post" "/x"])
    ∧ ([warn_request "post" "/x"] : List String) ≠ [] :=
  ⟨rfl, by decide⟩

/-! ### Claim C5: version dispatch in `from_file` -/

/-- C5 (amended): `from_file` aborts fatally — before any model
construction — only when the version marker is *missing* entirely; a
version marker that is present but unrecognized (neither `"2.0"` nor
starting with `"3"`) leaves the definitions table empty and therefore
takes the same notified no-op path as a recognized version whose
definitions/schemas section is absent; a recognized version with a
nonempty definitions section proceeds. -/
theorem version_dispatch_spec (doc : OpenApiDoc) :
    (doc.swagger = none → doc.openapi = none →
      version_dispatch doc = FromFileOutcome.fatalNoVersion)
    ∧ (∀ v, doc.swagger.orElse (fun _ => doc.openapi) = some v →
        v ≠ "2.0" → startswith v "3" = false →
        version_dispatch doc = FromFileOutcome.noDefinitions)
    ∧ (doc.swagger.orElse (fun _ => doc.openapi) = some "2.0" →
        doc.definitions = none →
        version_dispatch doc = FromFileOutcome.noDefinitions)
    ∧ (∀ ds, doc.swagger.orElse (fun _ => doc.openapi) = some "2.0" →
        doc.definitions = some ds → ds ≠ [] →
        version_dispatch doc = FromFileOutcome.proceeds ds)
    ∧ (∀ v, doc.swagger.orElse (fun _ => doc.openapi) = some v →
        startswith v "3" = true → doc.components_schemas = none →
        version_dispatch doc = FromFileOutcome.noDefinitions)
    ∧ (∀ v ds, doc.swagger.orElse (fun _ => doc.openapi) = some v →
        startswith v "3" = true → doc.components_schemas = some ds → ds ≠ [] →
        version_dispatch doc = FromFileOutcome.proceeds ds) := by
  have hnot2 : ∀ v : String, startswith v "3" = true → v ≠ "2.0" := by
    intro v h3 he
    rw [he] at h3
    exact absurd h3 (by decide)
  refine ⟨?_, ?_, ?_, ?_, ?_, ?_⟩
  · intro h1 h2
    unfold version_dispatch
    rw [h1, h2]
    rfl
  · intro v hv hne h3
    unfold version_dispatch
    rw [hv]
    simp only [if_neg hne, h3, Bool.false_eq_true, if_false]
    rfl
  · intro hv hd
    unfold version_dispatch
    rw [hv]
    simp only [if_pos rfl, hd]
    rfl
  · intro ds hv hd hne
    unfold version_dispatch
    rw [hv]
    simp [hd, List.isEmpty_iff, hne]
  · intro v hv h3 hcs
    unfold version_dispatch
    rw [hv]
    simp [hnot2 v h3, h3, hcs]
  · intro v ds hv h3 hcs hne
    unfold version_dispatch
    rw [hv]
    simp [hnot2 v h3, h3, hcs, List.isEmpty_iff, hne]

/-- Witness for C5 (amended): a document with no version marker is
fatal; `swagger: "1.0"` with a nonempty `definitions` section is a
notified no-op, not fatal; `swagger: "2.0"` without definitions is a
notified no-op; `swagger: "2.0"` with definitions proceeds;
`openapi: "3.0.1"` without `components.schemas` is a notified no-op;
`openapi: "3.0.1"` with a schema section proceeds. -/
theorem version_dispatch_spec_witness :
    version_dispatch doc_empty = FromFileOutcome.fatalNoVersion
    ∧ version_dispatch doc_v1 = FromFileOutcome.noDefinitions
    ∧ version_dispatch doc_v2_nodefs = FromFileOutcome.noDefinitions
    ∧ version_dispatch doc_v2
        = FromFileOutcome.proceeds [("User", user_schema)]
    ∧ version_dispatch doc_v3_nodefs = FromFileOutcome.noDefinitions
    ∧ version_dispatch doc_v3
        = FromFileOutcome.proceeds [("User", user_schema)] :=
  ⟨(version_dispatch_spec doc_empty).1 rfl rfl,
   (version_dispatch_spec doc_v1).2.1 "1.0" rfl (by decide) (by decide),
   (version_dispatch_spec doc_v2_nodefs).2.2.1 rfl rfl,
   (version_dispatch_spec doc_v2).2.2.2.1
      [("User", user_schema)] rfl rfl (by simp),
   (version_dispatch_spec doc_v3_nodefs).2.2.2.2.1 "3.0.1" rfl (by decide) rfl,
   (version_dispatch_spec doc_v3).2.2.2.2.2 "3.0.1"
      [("User", user_schema)] rfl (by decide) rfl (by simp)⟩

/-- Counterexample to C5 as stated: a document whose version marker is
present but unrecognized (`swagger: "1.0"`) with a nonempty
definitions section is *not* fatal; it takes the notified no-op
path. -/
theorem version_dispatch_unrecognized_cex :
    version_dispatch doc_v1 = FromFileOutcome.noDefinitions
    ∧ FromFileOutcome.noDefinitions ≠ FromFileOutcome.fatalNoVersion :=
  ⟨rfl, fun h => FromFileOutcome.noConfusion h⟩

end OpenapiDataclass
